import Mathlib

/-!
Verification of the pong server core: a shallow embedding of the wire
protocol codec (`shared/src/lib.rs`, `client_msg.rs`, `server_msg.rs`,
`game_state.rs`), the lobby state machine and game tick engine
(`server/src/tcp_stream_handler.rs`, `lobby.rs`) and the lobby id
generator (`server/src/lobby_id_generator.rs`).

Rust `u8`/`u16` values are modelled as `Nat` with an explicit `% 256`
(resp. `% 65536`) wherever the original arithmetic can wrap.  Byte
strings are `List Nat`; Rust `&str` values are modelled by their UTF-8
byte representation.  Fallible conversions return the `DResult` type
mirroring Rust's `Result<_, DeserializeMessageError>`.
-/

namespace Pong

/-- game_state.rs line 1. -/
def GAME_HEIGHT : Nat := 11

/-- game_state.rs line 2. -/
def GAME_WIDTH : Nat := 51

/-- game_state.rs line 3. -/
def PADDLE_HEIGHT : Nat := 5

/-- lib.rs line 7. -/
def LOBBY_ID_LEN : Nat := 4

/-- server_msg.rs line 29: `SERVER_MESSAGE_DELIMITER: u8 = u8::MAX`. -/
def SERVER_MESSAGE_DELIMITER : Nat := 255

/-- game_state.rs, struct `Ball`. -/
structure Ball where
  x : Nat
  y : Nat
  moving_right : Bool
  moving_down : Bool
deriving DecidableEq, Repr

/-- game_state.rs, struct `GameState`. -/
structure GameState where
  left_paddle : Nat
  right_paddle : Nat
  ball : Ball
deriving DecidableEq, Repr

/-- lib.rs, enum `DeserializeMessageError`.  The Rust `Utf8Error` variant
carries the error value produced by `std::str::from_utf8`; the payload is
irrelevant to every property considered here and is dropped. -/
inductive DeserializeMessageError where
  | EmptyMessage
  | InvalidBallPosition
  | InvalidByteCount
  | InvalidPaddlePosition
  | UnrecognisedMessageVariant
  | InvalidState
  | Utf8Error
deriving DecidableEq, Repr

/-- Rust `Result<α, DeserializeMessageError>`. -/
inductive DResult (α : Type) where
  | ok (val : α)
  | err (e : DeserializeMessageError)
deriving DecidableEq, Repr

/-- lib.rs lines 59-72, `validate_state_and_get_message_id`. -/
def validate_state_and_get_message_id (value : List Nat) (expected_state_id : Nat) :
    DResult Nat :=
  match value with
  | [] => .err .EmptyMessage
  | b :: _ =>
    if b >>> 4 ≠ expected_state_id then .err .InvalidState
    else .ok (b &&& 0b1111)

/-- lib.rs lines 74-80, `validate_byte_count`. -/
def validate_byte_count (slice : List Nat) (exp_len : Nat) : DResult Unit :=
  if slice.length ≠ exp_len then .err .InvalidByteCount else .ok ()

/-- A UTF-8 continuation byte (`0x80..=0xBF`). -/
def isUtf8Cont (b : Nat) : Bool := 0x80 ≤ b && b ≤ 0xBF

/-- Success condition of `std::str::from_utf8`: the standard UTF-8
well-formedness check (no overlong forms, no surrogates, maximum scalar
value `0x10FFFF`). -/
def validUtf8 : List Nat → Bool
  | [] => true
  | b :: rest =>
    if b ≤ 0x7F then validUtf8 rest
    else if 0xC2 ≤ b && b ≤ 0xDF then
      match rest with
      | c1 :: rest2 => isUtf8Cont c1 && validUtf8 rest2
      | [] => false
    else if b = 0xE0 then
      match rest with
      | c1 :: c2 :: rest2 => (0xA0 ≤ c1 && c1 ≤ 0xBF) && isUtf8Cont c2 && validUtf8 rest2
      | _ => false
    else if (0xE1 ≤ b && b ≤ 0xEC) || (0xEE ≤ b && b ≤ 0xEF) then
      match rest with
      | c1 :: c2 :: rest2 => isUtf8Cont c1 && isUtf8Cont c2 && validUtf8 rest2
      | _ => false
    else if b = 0xED then
      match rest with
      | c1 :: c2 :: rest2 => (0x80 ≤ c1 && c1 ≤ 0x9F) && isUtf8Cont c2 && validUtf8 rest2
      | _ => false
    else if b = 0xF0 then
      match rest with
      | c1 :: c2 :: c3 :: rest2 =>
          (0x90 ≤ c1 && c1 ≤ 0xBF) && isUtf8Cont c2 && isUtf8Cont c3 && validUtf8 rest2
      | _ => false
    else if 0xF1 ≤ b && b ≤ 0xF3 then
      match rest with
      | c1 :: c2 :: c3 :: rest2 =>
          isUtf8Cont c1 && isUtf8Cont c2 && isUtf8Cont c3 && validUtf8 rest2
      | _ => false
    else if b = 0xF4 then
      match rest with
      | c1 :: c2 :: c3 :: rest2 =>
          (0x80 ≤ c1 && c1 ≤ 0x8F) && isUtf8Cont c2 && isUtf8Cont c3 && validUtf8 rest2
      | _ => false
    else false

/-- client_msg.rs, enum `AwaitingOpenClientMessage`.  The `&str` lobby id
is represented by its UTF-8 bytes. -/
inductive AwaitingOpenClientMessage where
  | NewLobby
  | JoinLobby (lobby_id : List Nat)
deriving DecidableEq, Repr

/-- client_msg.rs, enum `AwaitingReadyClientMessage`. -/
inductive AwaitingReadyClientMessage where
  | Ready
  | Unready
deriving DecidableEq, Repr

/-- client_msg.rs, enum `PlayingClientMessage`. -/
inductive PlayingClientMessage where
  | MovePaddle (pos : Nat)
deriving DecidableEq, Repr

/-- server_msg.rs, enum `AwaitingNewLobbyServerMessage`. -/
inductive AwaitingNewLobbyServerMessage where
  | NewLobbyCreated (lobby_id : List Nat)
deriving DecidableEq, Repr

/-- server_msg.rs, enum `AwaitingJoinLobbyServerMessage`. -/
inductive AwaitingJoinLobbyServerMessage where
  | JoinedLobby
  | LobbyFull
  | LobbyNotFound
deriving DecidableEq, Repr

/-- server_msg.rs, enum `AwaitingOpponentJoinServerMessage`. -/
inductive AwaitingOpponentJoinServerMessage where
  | OpponentJoined
deriving DecidableEq, Repr

/-- server_msg.rs, enum `AwaitingReadyServerMessage`. -/
inductive AwaitingReadyServerMessage where
  | OpponentLeft
  | OpponentReadied
  | OpponentUnreadied
  | YouReadied
  | YouUnreadied
  | GameStarted
deriving DecidableEq, Repr

/-- server_msg.rs, enum `PlayingServerMessage`. -/
inductive PlayingServerMessage where
  | OpponentLeft
  | OpponentWon
  | YouWon
  | GameStateUpdated (game_state : GameState)
deriving DecidableEq, Repr

/-- `bytes[0] |= state << 4` applied to an initial variant byte: every
encoder builds its first byte this way. -/
def tagByte (state variant : Nat) : Nat := variant ||| (state <<< 4)

/-- client_msg.rs lines 26-35, `From<AwaitingOpenClientMessage> for Vec<u8>`. -/
def serializeAwaitingOpenClientMessage : AwaitingOpenClientMessage → List Nat
  | .NewLobby => [0]
  | .JoinLobby lobby_id => 1 :: lobby_id

/-- client_msg.rs lines 57-66, `From<AwaitingReadyClientMessage> for Vec<u8>`. -/
def serializeAwaitingReadyClientMessage : AwaitingReadyClientMessage → List Nat
  | .Ready => [tagByte 1 0]
  | .Unready => [tagByte 1 1]

/-- client_msg.rs lines 86-94, `From<PlayingClientMessage> for Vec<u8>`. -/
def serializePlayingClientMessage : PlayingClientMessage → List Nat
  | .MovePaddle pos => [tagByte 2 0, pos]

/-- server_msg.rs lines 67-75, `From<AwaitingNewLobbyServerMessage> for Vec<u8>`
(state id 0, so `bytes[0] |= 0 << 4` leaves the variant byte unchanged). -/
def serializeAwaitingNewLobbyServerMessage : AwaitingNewLobbyServerMessage → List Nat
  | .NewLobbyCreated lobby_id => 0 :: lobby_id

/-- server_msg.rs lines 93-103, `From<AwaitingJoinLobbyServerMessage> for Vec<u8>`. -/
def serializeAwaitingJoinLobbyServerMessage : AwaitingJoinLobbyServerMessage → List Nat
  | .JoinedLobby => [tagByte 1 0]
  | .LobbyFull => [tagByte 1 1]
  | .LobbyNotFound => [tagByte 1 2]

/-- server_msg.rs lines 127-135, `From<AwaitingOpponentJoinServerMessage> for Vec<u8>`. -/
def serializeAwaitingOpponentJoinServerMessage : AwaitingOpponentJoinServerMessage → List Nat
  | .OpponentJoined => [tagByte 2 0]

/-- server_msg.rs lines 151-164, `From<AwaitingReadyServerMessage> for Vec<u8>`. -/
def serializeAwaitingReadyServerMessage : AwaitingReadyServerMessage → List Nat
  | .OpponentLeft => [tagByte 3 0]
  | .OpponentReadied => [tagByte 3 1]
  | .OpponentUnreadied => [tagByte 3 2]
  | .YouReadied => [tagByte 3 3]
  | .YouUnreadied => [tagByte 3 4]
  | .GameStarted => [tagByte 3 5]

/-- server_msg.rs lines 200-220, `From<PlayingServerMessage> for Vec<u8>`.
The `u8` shifts `left_paddle << 4` and `ball.x << 1` / `ball.y << 1` wrap
modulo 256. -/
def serializePlayingServerMessage : PlayingServerMessage → List Nat
  | .OpponentLeft => [tagByte 4 0]
  | .OpponentWon => [tagByte 4 1]
  | .YouWon => [tagByte 4 2]
  | .GameStateUpdated game_state =>
      [tagByte 4 3,
       ((game_state.left_paddle <<< 4) % 256) ||| (game_state.right_paddle &&& 0b1111),
       ((game_state.ball.x <<< 1) % 256) ||| game_state.ball.moving_right.toNat,
       ((game_state.ball.y <<< 1) % 256) ||| game_state.ball.moving_down.toNat]

/-- client_msg.rs lines 37-55, `TryFrom<&[u8]> for AwaitingOpenClientMessage`. -/
def deserializeAwaitingOpenClientMessage (value : List Nat) :
    DResult AwaitingOpenClientMessage :=
  match validate_state_and_get_message_id value 0 with
  | .err e => .err e
  | .ok 0 =>
    match validate_byte_count value 1 with
    | .err e => .err e
    | .ok _ => .ok .NewLobby
  | .ok 1 =>
    match validate_byte_count value (LOBBY_ID_LEN + 1) with
    | .err e => .err e
    | .ok _ =>
      if validUtf8 (value.drop 1) then .ok (.JoinLobby (value.drop 1))
      else .err .Utf8Error
  | .ok _ => .err .UnrecognisedMessageVariant

/-- client_msg.rs lines 68-84, `TryFrom<&[u8]> for AwaitingReadyClientMessage`. -/
def deserializeAwaitingReadyClientMessage (value : List Nat) :
    DResult AwaitingReadyClientMessage :=
  match validate_state_and_get_message_id value 1 with
  | .err e => .err e
  | .ok 0 =>
    match validate_byte_count value 1 with
    | .err e => .err e
    | .ok _ => .ok .Ready
  | .ok 1 =>
    match validate_byte_count value 1 with
    | .err e => .err e
    | .ok _ => .ok .Unready
  | .ok _ => .err .UnrecognisedMessageVariant

/-- client_msg.rs lines 96-108, `TryFrom<&[u8]> for PlayingClientMessage`. -/
def deserializePlayingClientMessage (value : List Nat) :
    DResult PlayingClientMessage :=
  match validate_state_and_get_message_id value 2 with
  | .err e => .err e
  | .ok 0 =>
    match validate_byte_count value 2 with
    | .err e => .err e
    | .ok _ => .ok (.MovePaddle (value.getD 1 0))
  | .ok _ => .err .UnrecognisedMessageVariant

/-- server_msg.rs lines 77-91, `TryFrom<&[u8]> for AwaitingNewLobbyServerMessage`. -/
def deserializeAwaitingNewLobbyServerMessage (value : List Nat) :
    DResult AwaitingNewLobbyServerMessage :=
  match validate_state_and_get_message_id value 0 with
  | .err e => .err e
  | .ok 0 =>
    match validate_byte_count value (1 + LOBBY_ID_LEN) with
    | .err e => .err e
    | .ok _ =>
      if validUtf8 (value.drop 1) then .ok (.NewLobbyCreated (value.drop 1))
      else .err .Utf8Error
  | .ok _ => .err .UnrecognisedMessageVariant

/-- server_msg.rs lines 105-125, `TryFrom<&[u8]> for AwaitingJoinLobbyServerMessage`. -/
def deserializeAwaitingJoinLobbyServerMessage (value : List Nat) :
    DResult AwaitingJoinLobbyServerMessage :=
  match validate_state_and_get_message_id value 1 with
  | .err e => .err e
  | .ok 0 =>
    match validate_byte_count value 1 with
    | .err e => .err e
    | .ok _ => .ok .JoinedLobby
  | .ok 1 =>
    match validate_byte_count value 1 with
    | .err e => .err e
    | .ok _ => .ok .LobbyFull
  | .ok 2 =>
    match validate_byte_count value 1 with
    | .err e => .err e
    | .ok _ => .ok .LobbyNotFound
  | .ok _ => .err .UnrecognisedMessageVariant

/-- server_msg.rs lines 137-149, `TryFrom<&[u8]> for AwaitingOpponentJoinServerMessage`. -/
def deserializeAwaitingOpponentJoinServerMessage (value : List Nat) :
    DResult AwaitingOpponentJoinServerMessage :=
  match validate_state_and_get_message_id value 2 with
  | .err e => .err e
  | .ok 0 =>
    match validate_byte_count value 1 with
    | .err e => .err e
    | .ok _ => .ok .OpponentJoined
  | .ok _ => .err .UnrecognisedMessageVariant

/-- server_msg.rs lines 166-198, `TryFrom<&[u8]> for AwaitingReadyServerMessage`. -/
def deserializeAwaitingReadyServerMessage (value : List Nat) :
    DResult AwaitingReadyServerMessage :=
  match validate_state_and_get_message_id value 3 with
  | .err e => .err e
  | .ok 0 =>
    match validate_byte_count value 1 with
    | .err e => .err e
    | .ok _ => .ok .OpponentLeft
  | .ok 1 =>
    match validate_byte_count value 1 with
    | .err e => .err e
    | .ok _ => .ok .OpponentReadied
  | .ok 2 =>
    match validate_byte_count value 1 with
    | .err e => .err e
    | .ok _ => .ok .OpponentUnreadied
  | .ok 3 =>
    match validate_byte_count value 1 with
    | .err e => .err e
    | .ok _ => .ok .YouReadied
  | .ok 4 =>
    match validate_byte_count value 1 with
    | .err e => .err e
    | .ok _ => .ok .YouUnreadied
  | .ok 5 =>
    match validate_byte_count value 1 with
    | .err e => .err e
    | .ok _ => .ok .GameStarted
  | .ok _ => .err .UnrecognisedMessageVariant

/-- server_msg.rs lines 222-270, `TryFrom<&[u8]> for PlayingServerMessage`. -/
def deserializePlayingServerMessage (value : List Nat) :
    DResult PlayingServerMessage :=
  match validate_state_and_get_message_id value 4 with
  | .err e => .err e
  | .ok 0 =>
    match validate_byte_count value 1 with
    | .err e => .err e
    | .ok _ => .ok .OpponentLeft
  | .ok 1 =>
    match validate_byte_count value 1 with
    | .err e => .err e
    | .ok _ => .ok .OpponentWon
  | .ok 2 =>
    match validate_byte_count value 1 with
    | .err e => .err e
    | .ok _ => .ok .YouWon
  | .ok 3 =>
    match validate_byte_count value 4 with
    | .err e => .err e
    | .ok _ =>
      let left_paddle := value.getD 1 0 >>> 4
      if left_paddle > GAME_HEIGHT - PADDLE_HEIGHT then .err .InvalidPaddlePosition
      else
        let right_paddle := value.getD 1 0 &&& 0b1111
        if right_paddle > GAME_HEIGHT - PADDLE_HEIGHT then .err .InvalidPaddlePosition
        else
          let x := value.getD 2 0 >>> 1
          let y := value.getD 3 0 >>> 1
          if x ≥ GAME_WIDTH || y ≥ GAME_HEIGHT then .err .InvalidBallPosition
          else
            .ok (.GameStateUpdated
              { left_paddle := left_paddle,
                right_paddle := right_paddle,
                ball :=
                  { x := x, y := y,
                    moving_right := value.getD 2 0 &&& 1 == 1,
                    moving_down := value.getD 3 0 &&& 1 == 1 } })
  | .ok _ => .err .UnrecognisedMessageVariant

/-- tcp_stream_handler.rs lines 364-374, `write_to_client`: the encoded
message with the delimiter byte appended. -/
def frame (bytes : List Nat) : List Nat := bytes ++ [SERVER_MESSAGE_DELIMITER]

/-- A framed `AwaitingReadyServerMessage` as written to a socket. -/
def frameAwaitingReady (m : AwaitingReadyServerMessage) : List Nat :=
  frame (serializeAwaitingReadyServerMessage m)

/-- A framed `PlayingServerMessage` as written to a socket. -/
def framePlaying (m : PlayingServerMessage) : List Nat :=
  frame (serializePlayingServerMessage m)

/-- lobby.rs, enum `LobbyState` (the sub-state of a `Joined` lobby). -/
inductive LobbyState where
  | AwaitingReadies (left_player_ready right_player_ready : Bool)
  | Playing (game_state : GameState)
deriving DecidableEq, Repr

/-- tcp_stream_handler.rs lines 173-184: the game state installed when
both players become ready. -/
def initialGameState : GameState :=
  { left_paddle := 0,
    right_paddle := 0,
    ball :=
      { x := GAME_WIDTH / 2, y := GAME_HEIGHT / 2,
        moving_right := true, moving_down := true } }

/-- tcp_stream_handler.rs lines 222-229: the `ball.x == 1` check of the
ball handler.  Returns the updated ball together with the messages the
block writes to the left and right connection. -/
def leftWallCheck (left_paddle : Nat) (b : Ball) :
    Ball × List PlayingServerMessage × List PlayingServerMessage :=
  if b.x = 1 then
    if left_paddle > b.y || left_paddle + PADDLE_HEIGHT ≤ b.y then
      (b, [.OpponentWon], [.YouWon])
    else
      ({ b with moving_right := !b.moving_right }, [], [])
  else (b, [], [])

/-- tcp_stream_handler.rs lines 230-237: the `ball.x == GAME_WIDTH - 2`
check of the ball handler. -/
def rightWallCheck (right_paddle : Nat) (b : Ball) :
    Ball × List PlayingServerMessage × List PlayingServerMessage :=
  if b.x = GAME_WIDTH - 2 then
    if right_paddle > b.y || right_paddle + PADDLE_HEIGHT ≤ b.y then
      (b, [.YouWon], [.OpponentWon])
    else
      ({ b with moving_right := !b.moving_right }, [], [])
  else (b, [], [])

/-- tcp_stream_handler.rs lines 238-240: top/bottom bounce. -/
def verticalBounce (b : Ball) : Ball :=
  if b.y = 0 || b.y = GAME_HEIGHT - 1 then { b with moving_down := !b.moving_down } else b

/-- tcp_stream_handler.rs lines 241-250: advance the ball one unit in
its current direction (`u8` increment/decrement, wrapping modulo 256). -/
def advanceBall (b : Ball) : Ball :=
  let b2 := if b.moving_right then { b with x := (b.x + 1) % 256 }
            else { b with x := (b.x + 255) % 256 }
  if b2.moving_down then { b2 with y := (b2.y + 1) % 256 }
  else { b2 with y := (b2.y + 255) % 256 }

/-- Result of one iteration of the ball handler loop: the new game state
and the `PlayingServerMessage`s written to the left and right player
connection, in write order. -/
structure TickResult where
  game_state : GameState
  left_msgs : List PlayingServerMessage
  right_msgs : List PlayingServerMessage
deriving DecidableEq, Repr

/-- tcp_stream_handler.rs lines 218-254: one iteration of the ball
handler loop on a `Playing` lobby (win checks, bounces, advance, then a
`GameStateUpdated` broadcast to both connections). -/
def tickStep (gs : GameState) : TickResult :=
  let l := leftWallCheck gs.left_paddle gs.ball
  let r := rightWallCheck gs.right_paddle l.1
  let b3 := advanceBall (verticalBounce r.1)
  let gs2 := { gs with ball := b3 }
  let msg := PlayingServerMessage.GameStateUpdated gs2
  { game_state := gs2,
    left_msgs := l.2.1 ++ r.2.1 ++ [msg],
    right_msgs := l.2.2 ++ r.2.2 ++ [msg] }

/-- tcp_stream_handler.rs lines 274-281: the `MovePaddle` dispatch
assigns the client-supplied byte to the caller's paddle unconditionally. -/
def movePaddleStep (gs : GameState) (is_left_player : Bool) (pos : Nat) : GameState :=
  if is_left_player then { gs with left_paddle := pos } else { gs with right_paddle := pos }

/-- tcp_stream_handler.rs lines 144-148: the readiness-flag assignment
(`*left_player_ready = is_ready` / `*right_player_ready = is_ready`). -/
def readyFlagsUpdate (left_player_ready right_player_ready : Bool)
    (is_left_player is_ready : Bool) : Bool × Bool :=
  if is_left_player then (is_ready, right_player_ready)
  else (left_player_ready, is_ready)

/-- tcp_stream_handler.rs lines 129-264: dispatch of one raw client
message on a lobby in `AwaitingReadies`.  Returns the new lobby state and
the framed bytes written to the left resp. right connection, in write
order (decode failure is logged and dropped). -/
def handleAwaitingReadies (left_player_ready right_player_ready : Bool)
    (is_left_player : Bool) (message : List Nat) :
    LobbyState × List (List Nat) × List (List Nat) :=
  match deserializeAwaitingReadyClientMessage message with
  | .err _ => (.AwaitingReadies left_player_ready right_player_ready, [], [])
  | .ok m =>
    let is_ready := match m with | .Ready => true | .Unready => false
    let flags := readyFlagsUpdate left_player_ready right_player_ready is_left_player is_ready
    let youMsg := frameAwaitingReady (if is_ready then .YouReadied else .YouUnreadied)
    if !(flags.1 && flags.2) then
      let oppMsg := frameAwaitingReady (if is_ready then .OpponentReadied else .OpponentUnreadied)
      (.AwaitingReadies flags.1 flags.2,
       if is_left_player then [youMsg] else [oppMsg],
       if is_left_player then [oppMsg] else [youMsg])
    else
      let gs := initialGameState
      let startMsg := frameAwaitingReady .GameStarted
      let stateMsg := framePlaying (.GameStateUpdated gs)
      (.Playing gs,
       if is_left_player then [youMsg, startMsg, stateMsg] else [startMsg, stateMsg],
       if is_left_player then [startMsg, stateMsg] else [youMsg, startMsg, stateMsg])

/-- tcp_stream_handler.rs lines 266-293: dispatch of one raw client
message on a lobby in `Playing`. -/
def handlePlaying (gs : GameState) (is_left_player : Bool) (message : List Nat) :
    LobbyState × List (List Nat) × List (List Nat) :=
  match deserializePlayingClientMessage message with
  | .err _ => (.Playing gs, [], [])
  | .ok (.MovePaddle pos) =>
    let gs2 := movePaddleStep gs is_left_player pos
    let reply := framePlaying (.GameStateUpdated gs2)
    (.Playing gs2, [reply], [reply])

/-- An event serialized through the per-lobby entry lock: a raw client
message from one of the two connection handlers, or one iteration of the
ball handler thread. -/
inductive LobbyEvent where
  | clientMsg (is_left_player : Bool) (message : List Nat)
  | tick
deriving DecidableEq, Repr

/-- One serialized authoritative update on a `Joined` lobby.  A tick on a
lobby still in `AwaitingReadies` does nothing (tcp_stream_handler.rs
lines 214-217: the ball handler exits without writing; it is only spawned
once the lobby is `Playing`). -/
def lobbyStep (s : LobbyState) (e : LobbyEvent) :
    LobbyState × List (List Nat) × List (List Nat) :=
  match s, e with
  | .AwaitingReadies l r, .clientMsg isL msg => handleAwaitingReadies l r isL msg
  | .Playing gs, .clientMsg isL msg => handlePlaying gs isL msg
  | .AwaitingReadies l r, .tick => (.AwaitingReadies l r, [], [])
  | .Playing gs, .tick =>
    let t := tickStep gs
    (.Playing t.game_state, t.left_msgs.map framePlaying, t.right_msgs.map framePlaying)

/-- Fold `lobbyStep` over a list of events, accumulating the framed bytes
written to each of the two player connections. -/
def lobbyRun : LobbyState → List LobbyEvent → LobbyState × List (List Nat) × List (List Nat)
  | s, [] => (s, [], [])
  | s, e :: es =>
    let step := lobbyStep s e
    let rest := lobbyRun step.1 es
    (rest.1, step.2.1 ++ rest.2.1, step.2.2 ++ rest.2.2)

/-- Whether a lobby state is `Playing`. -/
def isPlaying : LobbyState → Bool
  | .Playing _ => true
  | .AwaitingReadies _ _ => false

/-- Number of `AwaitingReadies → Playing` transitions along a run. -/
def transitionCount : LobbyState → List LobbyEvent → Nat
  | _, [] => 0
  | s, e :: es =>
    let s2 := (lobbyStep s e).1
    (!isPlaying s && isPlaying s2).toNat + transitionCount s2 es

/-- The framed encoding of `AwaitingReadyServerMessage::GameStarted`. -/
def isGameStartedFrame (w : List Nat) : Bool := w == frameAwaitingReady .GameStarted

/-- A framed `PlayingServerMessage::GameStateUpdated` message: its first
byte is the tag `4 << 4 | 3`. -/
def isGameStateUpdatedFrame (w : List Nat) : Bool := w.head? == some (tagByte 4 3)

/-- Scans a list of framed messages written to one connection and checks
that every `GameStateUpdated` is preceded by a `GameStarted`; the flag
records whether a `GameStarted` has been seen. -/
def startedBeforeUpdated : Bool → List (List Nat) → Bool
  | _, [] => true
  | started, w :: ws =>
    if isGameStateUpdatedFrame w then started && startedBeforeUpdated started ws
    else startedBeforeUpdated (started || isGameStartedFrame w) ws

/-- The board-bounds invariant on a game state (spec §3): paddles at most
`GAME_HEIGHT - PADDLE_HEIGHT`, ball strictly inside the board. -/
def inBounds (gs : GameState) : Prop :=
  gs.left_paddle ≤ GAME_HEIGHT - PADDLE_HEIGHT ∧
  gs.right_paddle ≤ GAME_HEIGHT - PADDLE_HEIGHT ∧
  gs.ball.x < GAME_WIDTH ∧ gs.ball.y < GAME_HEIGHT

instance (gs : GameState) : Decidable (inBounds gs) := by
  unfold inBounds; infer_instance

/-- The ball is not resting on a wall while moving further into it (the
direction component of the tick engine's state invariant). -/
def safeDirections (gs : GameState) : Prop :=
  ¬(gs.ball.x = 0 ∧ gs.ball.moving_right = false) ∧
  ¬(gs.ball.x = GAME_WIDTH - 1 ∧ gs.ball.moving_right = true) ∧
  ¬(gs.ball.y = 0 ∧ gs.ball.moving_down = true) ∧
  ¬(gs.ball.y = GAME_HEIGHT - 1 ∧ gs.ball.moving_down = false)

instance (gs : GameState) : Decidable (safeDirections gs) := by
  unfold safeDirections; infer_instance

/-- lobby_id_generator.rs line 5. -/
def LOBBY_ID_RADIX : Nat := 32

/-- lobby_id_generator.rs lines 21-25: the radix-32 numeral string of the
internal counter (`((id_count >> 5 * idx) as u16) & 0b11111` per
position). -/
def numeralString (id_count : Nat) : List Nat :=
  (List.range LOBBY_ID_LEN).map (fun idx => ((id_count >>> (5 * idx)) % 65536) &&& 0b11111)

/-- lobby_id_generator.rs lines 31-34: remap a numeral (`n as u8`, hence
the caller reduces modulo 256) into the id alphabet, with `u8` wrapping
arithmetic (`n + b'2'` and `n + b'A' - 8`). -/
def numeralToChar (n : Nat) : Nat :=
  if n < 8 then (n + 50) % 256 else ((n + 65) % 256 + 248) % 256

/-- lobby_id_generator.rs lines 20-38, `next_id`, for one value of the
counter.  `ff1` stands for `FF1::<Aes256>::encrypt` of the external `fpe`
crate: a keyed format-preserving permutation of radix-32 numeral strings;
it is abstracted as a function parameter since its implementation is not
part of this repository. -/
def next_id (ff1 : List Nat → List Nat) (id_count : Nat) : List Nat :=
  (ff1 (numeralString id_count)).map (fun n => numeralToChar (n % 256))

/-- The contract of `FF1::encrypt` used by `next_id`: on radix-32 numeral
strings it returns a radix-32 numeral string of the same length. -/
def ff1Contract (ff1 : List Nat → List Nat) : Prop :=
  ∀ xs : List Nat, (∀ n ∈ xs, n < 32) →
    (ff1 xs).length = xs.length ∧ ∀ n ∈ ff1 xs, n < 32

/-- The lobby id alphabet `'2'..'9'` and `'A'..'Z'` (as byte values). -/
def isLobbyAlphabet (c : Nat) : Bool := (50 ≤ c && c ≤ 57) || (65 ≤ c && c ≤ 90)

/-! ### Helper lemmas about the packed `GameStateUpdated` bytes -/

theorem paddleByte_decode : ∀ lp < 7, ∀ rp < 7,
    (((lp <<< 4) % 256) ||| (rp &&& 0b1111)) >>> 4 = lp ∧
    (((lp <<< 4) % 256) ||| (rp &&& 0b1111)) &&& 0b1111 = rp ∧
    (((lp <<< 4) % 256) ||| (rp &&& 0b1111)) < 112 := by decide

theorem ballXByte_decode : ∀ x < 51, ∀ mr : Bool,
    (((x <<< 1) % 256) ||| mr.toNat) >>> 1 = x ∧
    ((((x <<< 1) % 256) ||| mr.toNat) &&& 1 == 1) = mr ∧
    (((x <<< 1) % 256) ||| mr.toNat) < 102 := by decide

theorem ballYByte_decode : ∀ y < 11, ∀ md : Bool,
    (((y <<< 1) % 256) ||| md.toNat) >>> 1 = y ∧
    ((((y <<< 1) % 256) ||| md.toNat) &&& 1 == 1) = md ∧
    (((y <<< 1) % 256) ||| md.toNat) < 22 := by decide

/-- Shape of the `GameStateUpdated` decoder on a 4-byte input with the
correct tag byte. -/
theorem deserializePlaying_gsu (b1 b2 b3 : Nat) :
    deserializePlayingServerMessage [tagByte 4 3, b1, b2, b3] =
      (if b1 >>> 4 > GAME_HEIGHT - PADDLE_HEIGHT then .err .InvalidPaddlePosition
       else if b1 &&& 0b1111 > GAME_HEIGHT - PADDLE_HEIGHT then .err .InvalidPaddlePosition
       else if b2 >>> 1 ≥ GAME_WIDTH || b3 >>> 1 ≥ GAME_HEIGHT then .err .InvalidBallPosition
       else .ok (.GameStateUpdated
         { left_paddle := b1 >>> 4, right_paddle := b1 &&& 0b1111,
           ball := { x := b2 >>> 1, y := b3 >>> 1,
                     moving_right := b2 &&& 1 == 1, moving_down := b3 &&& 1 == 1 } })) := rfl

/-- C6: decoding a 4-byte input carrying the `GameStateUpdated` tag
(state nibble 4, variant nibble 3) returns `InvalidPaddlePosition` when a
decoded paddle exceeds `GAME_HEIGHT - PADDLE_HEIGHT`, otherwise
`InvalidBallPosition` when the decoded ball lies outside the board,
otherwise succeeds with the decoded state. -/
theorem c6_game_state_update_bounds (b1 b2 b3 : Nat) :
    (b1 >>> 4 > GAME_HEIGHT - PADDLE_HEIGHT ∨ b1 &&& 0b1111 > GAME_HEIGHT - PADDLE_HEIGHT →
      deserializePlayingServerMessage [tagByte 4 3, b1, b2, b3] = .err .InvalidPaddlePosition) ∧
    (b1 >>> 4 ≤ GAME_HEIGHT - PADDLE_HEIGHT → b1 &&& 0b1111 ≤ GAME_HEIGHT - PADDLE_HEIGHT →
      b2 >>> 1 ≥ GAME_WIDTH ∨ b3 >>> 1 ≥ GAME_HEIGHT →
      deserializePlayingServerMessage [tagByte 4 3, b1, b2, b3] = .err .InvalidBallPosition) ∧
    (b1 >>> 4 ≤ GAME_HEIGHT - PADDLE_HEIGHT → b1 &&& 0b1111 ≤ GAME_HEIGHT - PADDLE_HEIGHT →
      b2 >>> 1 < GAME_WIDTH → b3 >>> 1 < GAME_HEIGHT →
      deserializePlayingServerMessage [tagByte 4 3, b1, b2, b3] =
        .ok (.GameStateUpdated
          { left_paddle := b1 >>> 4, right_paddle := b1 &&& 0b1111,
            ball := { x := b2 >>> 1, y := b3 >>> 1,
                      moving_right := b2 &&& 1 == 1, moving_down := b3 &&& 1 == 1 } })) := by
  rw [deserializePlaying_gsu]
  refine ⟨?_, ?_, ?_⟩
  · rintro (h | h)
    · rw [if_pos h]
    · by_cases h1 : b1 >>> 4 > GAME_HEIGHT - PADDLE_HEIGHT
      · rw [if_pos h1]
      · rw [if_neg h1, if_pos h]
  · intro h1 h2 h3
    have hc : (b2 >>> 1 ≥ GAME_WIDTH || b3 >>> 1 ≥ GAME_HEIGHT) = true := by
      simp only [ge_iff_le, Bool.or_eq_true, decide_eq_true_eq]
      omega
    rw [if_neg (by omega), if_neg (by omega), if_pos hc]
  · intro h1 h2 h3 h4
    have hc : ¬((b2 >>> 1 ≥ GAME_WIDTH || b3 >>> 1 ≥ GAME_HEIGHT) = true) := by
      simp only [ge_iff_le, Bool.or_eq_true, decide_eq_true_eq]
      omega
    rw [if_neg (by omega), if_neg (by omega), if_neg hc]

theorem c6_witness :
    deserializePlayingServerMessage [tagByte 4 3, 0b11110000, 0b01001111, 0b00010000] =
      .err .InvalidPaddlePosition ∧
    deserializePlayingServerMessage [tagByte 4 3, 0b01010000, 0b01101111, 0b00010000] =
      .err .InvalidBallPosition ∧
    deserializePlayingServerMessage [tagByte 4 3, 0b01010000, 0b01001111, 0b00010000] =
      .ok (.GameStateUpdated
        { left_paddle := 5, right_paddle := 0,
          ball := { x := 39, y := 8, moving_right := true, moving_down := false } }) :=
  ⟨(c6_game_state_update_bounds 0b11110000 0b01001111 0b00010000).1 (by decide),
   (c6_game_state_update_bounds 0b01010000 0b01101111 0b00010000).2.1
     (by decide) (by decide) (by decide),
   (c6_game_state_update_bounds 0b01010000 0b01001111 0b00010000).2.2
     (by decide) (by decide) (by decide) (by decide)⟩

/-- C7: every family decoder validates the state nibble before any
variant-specific length check: a non-empty input whose high nibble
differs from the family's expected state id yields `InvalidState`
whatever its length or low nibble, and the empty input yields
`EmptyMessage` for every decoder. -/
theorem c7_state_id_checked_first :
    (deserializeAwaitingOpenClientMessage [] = .err .EmptyMessage ∧
     deserializeAwaitingReadyClientMessage [] = .err .EmptyMessage ∧
     deserializePlayingClientMessage [] = .err .EmptyMessage ∧
     deserializeAwaitingNewLobbyServerMessage [] = .err .EmptyMessage ∧
     deserializeAwaitingJoinLobbyServerMessage [] = .err .EmptyMessage ∧
     deserializeAwaitingOpponentJoinServerMessage [] = .err .EmptyMessage ∧
     deserializeAwaitingReadyServerMessage [] = .err .EmptyMessage ∧
     deserializePlayingServerMessage [] = .err .EmptyMessage) ∧
    (∀ b bs, b >>> 4 ≠ 0 →
      deserializeAwaitingOpenClientMessage (b :: bs) = .err .InvalidState) ∧
    (∀ b bs, b >>> 4 ≠ 1 →
      deserializeAwaitingReadyClientMessage (b :: bs) = .err .InvalidState) ∧
    (∀ b bs, b >>> 4 ≠ 2 →
      deserializePlayingClientMessage (b :: bs) = .err .InvalidState) ∧
    (∀ b bs, b >>> 4 ≠ 0 →
      deserializeAwaitingNewLobbyServerMessage (b :: bs) = .err .InvalidState) ∧
    (∀ b bs, b >>> 4 ≠ 1 →
      deserializeAwaitingJoinLobbyServerMessage (b :: bs) = .err .InvalidState) ∧
    (∀ b bs, b >>> 4 ≠ 2 →
      deserializeAwaitingOpponentJoinServerMessage (b :: bs) = .err .InvalidState) ∧
    (∀ b bs, b >>> 4 ≠ 3 →
      deserializeAwaitingReadyServerMessage (b :: bs) = .err .InvalidState) ∧
    (∀ b bs, b >>> 4 ≠ 4 →
      deserializePlayingServerMessage (b :: bs) = .err .InvalidState) := by
  refine ⟨⟨rfl, rfl, rfl, rfl, rfl, rfl, rfl, rfl⟩, ?_, ?_, ?_, ?_, ?_, ?_, ?_, ?_⟩ <;>
    intro b bs h <;>
    simp [deserializeAwaitingOpenClientMessage, deserializeAwaitingReadyClientMessage,
      deserializePlayingClientMessage, deserializeAwaitingNewLobbyServerMessage,
      deserializeAwaitingJoinLobbyServerMessage, deserializeAwaitingOpponentJoinServerMessage,
      deserializeAwaitingReadyServerMessage, deserializePlayingServerMessage,
      validate_state_and_get_message_id, h]

theorem c7_witness :
    deserializeAwaitingOpenClientMessage [255, 0, 0, 0, 0] = .err .InvalidState :=
  c7_state_id_checked_first.2.1 255 [0, 0, 0, 0] (by decide)

/-- C8: `GameStateUpdated` encoding is total and silently truncates each
paddle to its low 4 bits and each ball coordinate to its low 7 bits; in
particular `left_paddle = 0b10110111` encodes identically to `0b0111`. -/
theorem c8_encoding_truncates (gs : GameState) :
    (serializePlayingServerMessage (.GameStateUpdated gs) =
      serializePlayingServerMessage (.GameStateUpdated
        { left_paddle := gs.left_paddle % 16,
          right_paddle := gs.right_paddle % 16,
          ball := { gs.ball with x := gs.ball.x % 128, y := gs.ball.y % 128 } })) ∧
    serializePlayingServerMessage (.GameStateUpdated
      { left_paddle := 0b10110111, right_paddle := 5,
        ball := { x := 20, y := 7, moving_right := true, moving_down := false } }) =
    serializePlayingServerMessage (.GameStateUpdated
      { left_paddle := 0b0111, right_paddle := 5,
        ball := { x := 20, y := 7, moving_right := true, moving_down := false } }) := by
  have h16 : ∀ a : Nat, a <<< 4 = a * 16 := fun a => by simp [Nat.shiftLeft_eq]
  have h2 : ∀ a : Nat, a <<< 1 = a * 2 := fun a => by simp [Nat.shiftLeft_eq]
  have hand : ∀ a : Nat, a &&& 0b1111 = a % 16 := fun a => Nat.and_pow_two_sub_one_eq_mod a 4
  constructor
  · have e1 : ((gs.left_paddle <<< 4) % 256) ||| (gs.right_paddle &&& 0b1111) =
        (((gs.left_paddle % 16) <<< 4) % 256) ||| ((gs.right_paddle % 16) &&& 0b1111) := by
      rw [h16, h16, hand, hand]
      congr 1 <;> omega
    have e2 : ((gs.ball.x <<< 1) % 256) = (((gs.ball.x % 128) <<< 1) % 256) := by
      rw [h2, h2]
      omega
    have e3 : ((gs.ball.y <<< 1) % 256) = (((gs.ball.y % 128) <<< 1) % 256) := by
      rw [h2, h2]
      omega
    simp only [serializePlayingServerMessage]
    rw [e1, e2, e3]
  · decide

/-- C9: `next_id` produces exactly `LOBBY_ID_LEN = 4` characters, each
drawn from the alphabet `'2'..'9'` and `'A'..'Z'` (numerals 0-7 map to
`'2'..'9'`, numerals 8-31 to `'A'..'Z'`); `'0'` (48) and `'1'` (49)
never appear.  The FF1 permutation of the external `fpe` crate is
abstracted by its format-preserving contract. -/
theorem c9_lobby_id_alphabet (ff1 : List Nat → List Nat) (hff : ff1Contract ff1)
    (id_count : Nat) :
    (next_id ff1 id_count).length = LOBBY_ID_LEN ∧
    ∀ c ∈ next_id ff1 id_count, isLobbyAlphabet c = true ∧ c ≠ 48 ∧ c ≠ 49 := by
  have hnum : ∀ n ∈ numeralString id_count, n < 32 := by
    intro n hn
    simp only [numeralString, List.mem_map, List.mem_range] at hn
    obtain ⟨idx, _, rfl⟩ := hn
    exact lt_of_le_of_lt Nat.and_le_right (by norm_num)
  obtain ⟨hlen, hmem⟩ := hff (numeralString id_count) hnum
  constructor
  · rw [next_id, List.length_map, hlen]
    simp [numeralString, LOBBY_ID_LEN]
  · intro c hc
    simp only [next_id, List.mem_map] at hc
    obtain ⟨n, hn, rfl⟩ := hc
    have h32 := hmem n hn
    have hmod : n % 256 = n := Nat.mod_eq_of_lt (by omega)
    rw [hmod]
    unfold numeralToChar
    by_cases h8 : n < 8
    · rw [if_pos h8]
      refine ⟨?_, by omega, by omega⟩
      simp only [isLobbyAlphabet, Bool.or_eq_true, Bool.and_eq_true, decide_eq_true_eq]
      omega
    · rw [if_neg h8]
      refine ⟨?_, by omega, by omega⟩
      simp only [isLobbyAlphabet, Bool.or_eq_true, Bool.and_eq_true, decide_eq_true_eq]
      omega

theorem c9_witness :
    (next_id (fun xs => xs) 0).length = LOBBY_ID_LEN ∧
    ∀ c ∈ next_id (fun xs => xs) 0, isLobbyAlphabet c = true ∧ c ≠ 48 ∧ c ≠ 49 :=
  c9_lobby_id_alphabet (fun xs => xs) (fun _ h => ⟨rfl, h⟩) 0

/-- C10: a `Ready`/`Unready` message assigns the sender's readiness flag
absolutely (it does not toggle), so handling the same readiness message
twice from the same player leaves the flags as after handling it once. -/
theorem c10_ready_idempotent :
    (∀ l r isL rdy : Bool,
      readyFlagsUpdate (readyFlagsUpdate l r isL rdy).1 (readyFlagsUpdate l r isL rdy).2
        isL rdy = readyFlagsUpdate l r isL rdy) ∧
    (∀ (l r : Bool) (isL : Bool) (msg : List Nat) (l' r' : Bool),
      (lobbyStep (.AwaitingReadies l r) (.clientMsg isL msg)).1 = .AwaitingReadies l' r' →
      (lobbyStep (.AwaitingReadies l' r') (.clientMsg isL msg)).1 = .AwaitingReadies l' r') := by
  constructor
  · decide
  · intro l r isL msg l' r' h
    simp only [lobbyStep] at h ⊢
    cases hd : deserializeAwaitingReadyClientMessage msg with
    | err e => simp [handleAwaitingReadies, hd]
    | ok m =>
      cases m <;> cases isL <;> cases l <;> cases r <;>
        simp_all [handleAwaitingReadies, readyFlagsUpdate]

theorem c10_witness :
    (lobbyStep (.AwaitingReadies false false) (.clientMsg true [tagByte 1 1])).1 =
      .AwaitingReadies false false :=
  c10_ready_idempotent.2 false false true [tagByte 1 1] false false (by decide)

/-- The `GameStateUpdated` encoding of an in-bounds game state decodes
back to the same state. -/
theorem gsu_roundtrip (gs : GameState)
    (h1 : gs.left_paddle ≤ GAME_HEIGHT - PADDLE_HEIGHT)
    (h2 : gs.right_paddle ≤ GAME_HEIGHT - PADDLE_HEIGHT)
    (h3 : gs.ball.x < GAME_WIDTH) (h4 : gs.ball.y < GAME_HEIGHT) :
    deserializePlayingServerMessage (serializePlayingServerMessage (.GameStateUpdated gs)) =
      .ok (.GameStateUpdated gs) := by
  have hp := paddleByte_decode gs.left_paddle (by revert h1; unfold GAME_HEIGHT PADDLE_HEIGHT; omega)
    gs.right_paddle (by revert h2; unfold GAME_HEIGHT PADDLE_HEIGHT; omega)
  have hx := ballXByte_decode gs.ball.x (by revert h3; unfold GAME_WIDTH; omega)
    gs.ball.moving_right
  have hy := ballYByte_decode gs.ball.y (by revert h4; unfold GAME_HEIGHT; omega)
    gs.ball.moving_down
  simp only [serializePlayingServerMessage]
  rw [deserializePlaying_gsu, hp.1, hp.2.1, hx.1, hx.2.1, hy.1, hy.2.1]
  have hball : ¬((gs.ball.x ≥ GAME_WIDTH || gs.ball.y ≥ GAME_HEIGHT) = true) := by
    simp only [ge_iff_le, Bool.or_eq_true, decide_eq_true_eq]
    omega
  rw [if_neg (by omega), if_neg (by omega), if_neg hball]

/-- C2: decoding the encoding of every message variant of every
client→server and server→client family returns `ok` of the same message
(lobby ids are the protocol's 4-byte valid-UTF-8 ids; `GameStateUpdated`
carries an in-bounds authoritative state). -/
theorem c2_encode_decode_roundtrip :
    (deserializeAwaitingOpenClientMessage
      (serializeAwaitingOpenClientMessage .NewLobby) = .ok .NewLobby) ∧
    (∀ lobby_id : List Nat, lobby_id.length = LOBBY_ID_LEN → validUtf8 lobby_id = true →
      deserializeAwaitingOpenClientMessage
        (serializeAwaitingOpenClientMessage (.JoinLobby lobby_id)) =
        .ok (.JoinLobby lobby_id)) ∧
    (deserializeAwaitingReadyClientMessage
      (serializeAwaitingReadyClientMessage .Ready) = .ok .Ready) ∧
    (deserializeAwaitingReadyClientMessage
      (serializeAwaitingReadyClientMessage .Unready) = .ok .Unready) ∧
    (∀ pos : Nat, deserializePlayingClientMessage
      (serializePlayingClientMessage (.MovePaddle pos)) = .ok (.MovePaddle pos)) ∧
    (∀ lobby_id : List Nat, lobby_id.length = LOBBY_ID_LEN → validUtf8 lobby_id = true →
      deserializeAwaitingNewLobbyServerMessage
        (serializeAwaitingNewLobbyServerMessage (.NewLobbyCreated lobby_id)) =
        .ok (.NewLobbyCreated lobby_id)) ∧
    (∀ m : AwaitingJoinLobbyServerMessage,
      deserializeAwaitingJoinLobbyServerMessage
        (serializeAwaitingJoinLobbyServerMessage m) = .ok m) ∧
    (deserializeAwaitingOpponentJoinServerMessage
      (serializeAwaitingOpponentJoinServerMessage .OpponentJoined) = .ok .OpponentJoined) ∧
    (∀ m : AwaitingReadyServerMessage,
      deserializeAwaitingReadyServerMessage
        (serializeAwaitingReadyServerMessage m) = .ok m) ∧
    (deserializePlayingServerMessage
      (serializePlayingServerMessage .OpponentLeft) = .ok .OpponentLeft) ∧
    (deserializePlayingServerMessage
      (serializePlayingServerMessage .OpponentWon) = .ok .OpponentWon) ∧
    (deserializePlayingServerMessage
      (serializePlayingServerMessage .YouWon) = .ok .YouWon) ∧
    (∀ gs : GameState, gs.left_paddle ≤ GAME_HEIGHT - PADDLE_HEIGHT →
      gs.right_paddle ≤ GAME_HEIGHT - PADDLE_HEIGHT →
      gs.ball.x < GAME_WIDTH → gs.ball.y < GAME_HEIGHT →
      deserializePlayingServerMessage
        (serializePlayingServerMessage (.GameStateUpdated gs)) =
        .ok (.GameStateUpdated gs)) := by
  refine ⟨rfl, ?_, rfl, rfl, fun pos => rfl, ?_, fun m => by cases m <;> rfl, rfl,
    fun m => by cases m <;> rfl, rfl, rfl, rfl, gsu_roundtrip⟩
  · intro lobby_id hlen hutf
    simp [deserializeAwaitingOpenClientMessage, serializeAwaitingOpenClientMessage,
      validate_state_and_get_message_id, validate_byte_count, hlen, hutf, LOBBY_ID_LEN]
  · intro lobby_id hlen hutf
    simp [deserializeAwaitingNewLobbyServerMessage, serializeAwaitingNewLobbyServerMessage,
      validate_state_and_get_message_id, validate_byte_count, hlen, hutf, LOBBY_ID_LEN]

theorem c2_witness :
    deserializeAwaitingOpenClientMessage
      (serializeAwaitingOpenClientMessage (.JoinLobby [65, 53, 69, 90])) =
      .ok (.JoinLobby [65, 53, 69, 90]) ∧
    deserializeAwaitingNewLobbyServerMessage
      (serializeAwaitingNewLobbyServerMessage (.NewLobbyCreated [70, 55, 66, 87])) =
      .ok (.NewLobbyCreated [70, 55, 66, 87]) ∧
    deserializePlayingServerMessage
      (serializePlayingServerMessage (.GameStateUpdated
        { left_paddle := 6, right_paddle := 2,
          ball := { x := 31, y := 10, moving_right := true, moving_down := false } })) =
      .ok (.GameStateUpdated
        { left_paddle := 6, right_paddle := 2,
          ball := { x := 31, y := 10, moving_right := true, moving_down := false } }) :=
  ⟨c2_encode_decode_roundtrip.2.1 [65, 53, 69, 90] (by decide) (by decide),
   c2_encode_decode_roundtrip.2.2.2.2.2.1 [70, 55, 66, 87] (by decide) (by decide),
   c2_encode_decode_roundtrip.2.2.2.2.2.2.2.2.2.2.2.2
     { left_paddle := 6, right_paddle := 2,
       ball := { x := 31, y := 10, moving_right := true, moving_down := false } }
     (by decide) (by decide) (by decide) (by decide)⟩

/-- A framed message whose body never contains the delimiter contains
exactly one delimiter byte: the appended one. -/
theorem frame_count_delimiter (bs : List Nat) (h : SERVER_MESSAGE_DELIMITER ∉ bs) :
    (frame bs).count SERVER_MESSAGE_DELIMITER = 1 := by
  rw [frame, List.count_append, List.count_eq_zero.mpr h]
  rfl

/-- C3: the build-time constant checks of server_msg.rs hold, and no
byte of a valid server→client encoding equals the delimiter `0xFF`, so
the appended delimiter is the unique `0xFF` byte of the framed message. -/
theorem c3_delimiter_never_in_body :
    (GAME_HEIGHT < 2 ^ 7 - 1 ∧ GAME_WIDTH < 2 ^ 7 - 1 ∧
      GAME_HEIGHT - PADDLE_HEIGHT < 2 ^ 4 - 1) ∧
    (∀ lobby_id : List Nat, (∀ c ∈ lobby_id, isLobbyAlphabet c = true) →
      SERVER_MESSAGE_DELIMITER ∉
        serializeAwaitingNewLobbyServerMessage (.NewLobbyCreated lobby_id) ∧
      (frame (serializeAwaitingNewLobbyServerMessage
        (.NewLobbyCreated lobby_id))).count SERVER_MESSAGE_DELIMITER = 1) ∧
    (∀ m : AwaitingJoinLobbyServerMessage,
      SERVER_MESSAGE_DELIMITER ∉ serializeAwaitingJoinLobbyServerMessage m ∧
      (frame (serializeAwaitingJoinLobbyServerMessage m)).count SERVER_MESSAGE_DELIMITER = 1) ∧
    (∀ m : AwaitingOpponentJoinServerMessage,
      SERVER_MESSAGE_DELIMITER ∉ serializeAwaitingOpponentJoinServerMessage m ∧
      (frame (serializeAwaitingOpponentJoinServerMessage m)).count
        SERVER_MESSAGE_DELIMITER = 1) ∧
    (∀ m : AwaitingReadyServerMessage,
      SERVER_MESSAGE_DELIMITER ∉ serializeAwaitingReadyServerMessage m ∧
      (frame (serializeAwaitingReadyServerMessage m)).count SERVER_MESSAGE_DELIMITER = 1) ∧
    (SERVER_MESSAGE_DELIMITER ∉ serializePlayingServerMessage .OpponentLeft ∧
      (frame (serializePlayingServerMessage .OpponentLeft)).count
        SERVER_MESSAGE_DELIMITER = 1) ∧
    (SERVER_MESSAGE_DELIMITER ∉ serializePlayingServerMessage .OpponentWon ∧
      (frame (serializePlayingServerMessage .OpponentWon)).count
        SERVER_MESSAGE_DELIMITER = 1) ∧
    (SERVER_MESSAGE_DELIMITER ∉ serializePlayingServerMessage .YouWon ∧
      (frame (serializePlayingServerMessage .YouWon)).count SERVER_MESSAGE_DELIMITER = 1) ∧
    (∀ gs : GameState, gs.left_paddle ≤ GAME_HEIGHT - PADDLE_HEIGHT →
      gs.right_paddle ≤ GAME_HEIGHT - PADDLE_HEIGHT →
      gs.ball.x < GAME_WIDTH → gs.ball.y < GAME_HEIGHT →
      SERVER_MESSAGE_DELIMITER ∉ serializePlayingServerMessage (.GameStateUpdated gs) ∧
      (frame (serializePlayingServerMessage (.GameStateUpdated gs))).count
        SERVER_MESSAGE_DELIMITER = 1) := by
  refine ⟨by decide, ?_, fun m => ?_, fun m => ?_, fun m => ?_, ?_, ?_, ?_, ?_⟩
  · intro lobby_id halpha
    have h255 : (255 : Nat) ∉ lobby_id := by
      intro hc
      have := halpha 255 hc
      simp [isLobbyAlphabet] at this
    have hmem : SERVER_MESSAGE_DELIMITER ∉
        serializeAwaitingNewLobbyServerMessage (.NewLobbyCreated lobby_id) := by
      simp only [serializeAwaitingNewLobbyServerMessage, SERVER_MESSAGE_DELIMITER,
        List.mem_cons, not_or]
      exact ⟨by omega, h255⟩
    exact ⟨hmem, frame_count_delimiter _ hmem⟩
  · cases m <;> exact ⟨by decide, frame_count_delimiter _ (by decide)⟩
  · cases m
    exact ⟨by decide, frame_count_delimiter _ (by decide)⟩
  · cases m <;> exact ⟨by decide, frame_count_delimiter _ (by decide)⟩
  · exact ⟨by decide, frame_count_delimiter _ (by decide)⟩
  · exact ⟨by decide, frame_count_delimiter _ (by decide)⟩
  · exact ⟨by decide, frame_count_delimiter _ (by decide)⟩
  · intro gs h1 h2 h3 h4
    have hp := paddleByte_decode gs.left_paddle
      (by revert h1; unfold GAME_HEIGHT PADDLE_HEIGHT; omega)
      gs.right_paddle (by revert h2; unfold GAME_HEIGHT PADDLE_HEIGHT; omega)
    have hx := ballXByte_decode gs.ball.x (by revert h3; unfold GAME_WIDTH; omega)
      gs.ball.moving_right
    have hy := ballYByte_decode gs.ball.y (by revert h4; unfold GAME_HEIGHT; omega)
      gs.ball.moving_down
    have hmem : SERVER_MESSAGE_DELIMITER ∉
        serializePlayingServerMessage (.GameStateUpdated gs) := by
      have hb1 := hp.2.2
      have hb2 := hx.2.2
      have hb3 := hy.2.2
      simp only [serializePlayingServerMessage, SERVER_MESSAGE_DELIMITER, List.mem_cons,
        List.not_mem_nil, or_false, not_or]
      refine ⟨by decide, by omega, by omega, by omega⟩
    exact ⟨hmem, frame_count_delimiter _ hmem⟩

theorem c3_witness :
    SERVER_MESSAGE_DELIMITER ∉
      serializeAwaitingNewLobbyServerMessage (.NewLobbyCreated [72, 53, 77, 83]) ∧
    (frame (serializeAwaitingNewLobbyServerMessage
      (.NewLobbyCreated [72, 53, 77, 83]))).count SERVER_MESSAGE_DELIMITER = 1 :=
  c3_delimiter_never_in_body.2.1 [72, 53, 77, 83] (by decide)

/-! ### Component lemmas about the ball handler -/

theorem leftWallCheck_x (lp : Nat) (b : Ball) : (leftWallCheck lp b).1.x = b.x := by
  unfold leftWallCheck
  split_ifs <;> rfl

theorem leftWallCheck_y (lp : Nat) (b : Ball) : (leftWallCheck lp b).1.y = b.y := by
  unfold leftWallCheck
  split_ifs <;> rfl

theorem leftWallCheck_md (lp : Nat) (b : Ball) :
    (leftWallCheck lp b).1.moving_down = b.moving_down := by
  unfold leftWallCheck
  split_ifs <;> rfl

theorem rightWallCheck_x (rp : Nat) (b : Ball) : (rightWallCheck rp b).1.x = b.x := by
  unfold rightWallCheck
  split_ifs <;> rfl

theorem rightWallCheck_y (rp : Nat) (b : Ball) : (rightWallCheck rp b).1.y = b.y := by
  unfold rightWallCheck
  split_ifs <;> rfl

theorem rightWallCheck_md (rp : Nat) (b : Ball) :
    (rightWallCheck rp b).1.moving_down = b.moving_down := by
  unfold rightWallCheck
  split_ifs <;> rfl

theorem verticalBounce_x (b : Ball) : (verticalBounce b).x = b.x := by
  unfold verticalBounce
  split_ifs <;> rfl

theorem verticalBounce_y (b : Ball) : (verticalBounce b).y = b.y := by
  unfold verticalBounce
  split_ifs <;> rfl

theorem verticalBounce_mr (b : Ball) : (verticalBounce b).moving_right = b.moving_right := by
  unfold verticalBounce
  split_ifs <;> rfl

theorem verticalBounce_md (b : Ball) :
    (verticalBounce b).moving_down =
      (if b.y = 0 || b.y = GAME_HEIGHT - 1 then !b.moving_down else b.moving_down) := by
  unfold verticalBounce
  split_ifs <;> rfl

theorem advanceBall_x (b : Ball) :
    (advanceBall b).x = (if b.moving_right then (b.x + 1) % 256 else (b.x + 255) % 256) := by
  unfold advanceBall
  cases hmr : b.moving_right <;> cases hmd : b.moving_down <;> simp [hmr, hmd]

theorem advanceBall_y (b : Ball) :
    (advanceBall b).y = (if b.moving_down then (b.y + 1) % 256 else (b.y + 255) % 256) := by
  unfold advanceBall
  cases hmr : b.moving_right <;> cases hmd : b.moving_down <;> simp [hmr, hmd]

theorem advanceBall_mr (b : Ball) : (advanceBall b).moving_right = b.moving_right := by
  unfold advanceBall
  cases hmr : b.moving_right <;> cases hmd : b.moving_down <;> simp [hmr, hmd]

theorem advanceBall_md (b : Ball) : (advanceBall b).moving_down = b.moving_down := by
  unfold advanceBall
  cases hmr : b.moving_right <;> cases hmd : b.moving_down <;> simp [hmr, hmd]

/-- The two wall checks only ever change the ball's horizontal
direction, and change nothing when the ball is at neither check
column. -/
theorem wallChecks_ball (gs : GameState) :
    ∃ mr2 : Bool,
      (rightWallCheck gs.right_paddle (leftWallCheck gs.left_paddle gs.ball).1).1 =
        { gs.ball with moving_right := mr2 } ∧
      (gs.ball.x ≠ 1 → gs.ball.x ≠ GAME_WIDTH - 2 → mr2 = gs.ball.moving_right) := by
  obtain ⟨lp, rp, bx, yy, bmr, bmd⟩ := gs
  unfold leftWallCheck rightWallCheck
  by_cases h1 : bx = 1
  · by_cases hh : (lp > yy || lp + PADDLE_HEIGHT ≤ yy) = true
    · refine ⟨bmr, ?_, fun _ _ => rfl⟩
      simp [h1, hh, GAME_WIDTH]
    · refine ⟨!bmr, ?_, fun hc _ => absurd h1 hc⟩
      simp [h1, hh, GAME_WIDTH]
  · by_cases h49 : bx = GAME_WIDTH - 2
    · by_cases hh : (rp > yy || rp + PADDLE_HEIGHT ≤ yy) = true
      · refine ⟨bmr, ?_, fun _ _ => rfl⟩
        simp [h1, h49, hh, GAME_WIDTH]
      · refine ⟨!bmr, ?_, fun _ hc => absurd h49 hc⟩
        simp [h1, h49, hh, GAME_WIDTH]
    · refine ⟨bmr, ?_, fun _ _ => rfl⟩
      simp [h1, h49]

/-- The tick step never changes the paddles, and its ball is the
composition of the wall checks, the vertical bounce and the advance. -/
theorem tickStep_state (gs : GameState) :
    (tickStep gs).game_state.left_paddle = gs.left_paddle ∧
    (tickStep gs).game_state.right_paddle = gs.right_paddle ∧
    (tickStep gs).game_state.ball =
      advanceBall (verticalBounce
        (rightWallCheck gs.right_paddle (leftWallCheck gs.left_paddle gs.ball).1).1) :=
  ⟨rfl, rfl, rfl⟩

/-- C1 fails as stated: the initial in-bounds game state is driven out
of bounds by a single `MovePaddle` dispatch with the client byte 7, and
an in-bounds state with the ball resting on the left wall moving left is
driven out of bounds by a single tick step (the `u8` x coordinate wraps
to 255). -/
theorem c1_counterexample :
    inBounds { left_paddle := 0, right_paddle := 0,
               ball := { x := 25, y := 5, moving_right := true, moving_down := true } } ∧
    ¬ inBounds (movePaddleStep
      { left_paddle := 0, right_paddle := 0,
        ball := { x := 25, y := 5, moving_right := true, moving_down := true } } true 7) ∧
    inBounds { left_paddle := 0, right_paddle := 0,
               ball := { x := 0, y := 5, moving_right := false, moving_down := true } } ∧
    ¬ inBounds (tickStep
      { left_paddle := 0, right_paddle := 0,
        ball := { x := 0, y := 5, moving_right := false, moving_down := true } }).game_state := by
  decide

/-- C1 (amended): an in-bounds game state stays in bounds under one tick
step provided the ball is not resting on a wall while moving into it,
and under one `MovePaddle` dispatch provided the client-supplied byte is
at most `GAME_HEIGHT - PADDLE_HEIGHT`. -/
theorem c1_amended_bounds (gs : GameState) (hb : inBounds gs) :
    (safeDirections gs → inBounds (tickStep gs).game_state) ∧
    (∀ (is_left_player : Bool) (pos : Nat), pos ≤ GAME_HEIGHT - PADDLE_HEIGHT →
      inBounds (movePaddleStep gs is_left_player pos)) := by
  obtain ⟨hlp, hrp, hx, hy⟩ := hb
  constructor
  · rintro ⟨hs1, hs2, hs3, hs4⟩
    obtain ⟨mr2, hwall, hnotwall⟩ := wallChecks_ball gs
    obtain ⟨hL, hR, hball⟩ := tickStep_state gs
    rw [hwall] at hball
    refine ⟨hL ▸ hlp, hR ▸ hrp, ?_, ?_⟩
    · rw [hball, advanceBall_x, verticalBounce_x, verticalBounce_mr]
      show (if mr2 = true then (gs.ball.x + 1) % 256 else (gs.ball.x + 255) % 256) < GAME_WIDTH
      by_cases h1 : gs.ball.x = 1
      · rw [h1]
        cases mr2 <;> decide
      · by_cases h49 : gs.ball.x = GAME_WIDTH - 2
        · rw [h49]
          cases mr2 <;> decide
        · rw [hnotwall h1 h49]
          cases hmr : gs.ball.moving_right
          · have hx0 : gs.ball.x ≠ 0 := fun hc => hs1 ⟨hc, hmr⟩
            rw [if_neg (by decide)]
            simp only [GAME_WIDTH] at hx h49 ⊢
            omega
          · have hx50 : gs.ball.x ≠ GAME_WIDTH - 1 := fun hc => hs2 ⟨hc, hmr⟩
            rw [if_pos rfl]
            simp only [GAME_WIDTH] at hx h49 hx50 ⊢
            omega
    · rw [hball, advanceBall_y, verticalBounce_y, verticalBounce_md]
      show (if (if gs.ball.y = 0 || gs.ball.y = GAME_HEIGHT - 1
                then !gs.ball.moving_down else gs.ball.moving_down) = true
            then (gs.ball.y + 1) % 256 else (gs.ball.y + 255) % 256) < GAME_HEIGHT
      by_cases hy0 : gs.ball.y = 0
      · have hmd : gs.ball.moving_down = false := by
          cases hmd2 : gs.ball.moving_down
          · rfl
          · exact absurd ⟨hy0, hmd2⟩ hs3
        rw [hy0, hmd]
        decide
      · by_cases hy10 : gs.ball.y = GAME_HEIGHT - 1
        · have hmd : gs.ball.moving_down = true := by
            cases hmd2 : gs.ball.moving_down
            · exact absurd ⟨hy10, hmd2⟩ hs4
            · rfl
          rw [hy10, hmd]
          decide
        · have hcond : (gs.ball.y = 0 || gs.ball.y = GAME_HEIGHT - 1) = false := by
            simp [hy0, hy10]
          rw [hcond]
          simp only [Bool.false_eq_true, if_false]
          cases hmd : gs.ball.moving_down
          · rw [if_neg (by decide)]
            simp only [GAME_HEIGHT] at hy hy10 ⊢
            omega
          · rw [if_pos rfl]
            simp only [GAME_HEIGHT] at hy hy10 ⊢
            omega
  · intro isL pos hpos
    cases isL
    · exact ⟨hlp, hpos, hx, hy⟩
    · exact ⟨hpos, hrp, hx, hy⟩

theorem c1_witness :
    inBounds (tickStep
      { left_paddle := 0, right_paddle := 0,
        ball := { x := 25, y := 5, moving_right := true, moving_down := true } }).game_state ∧
    inBounds (movePaddleStep
      { left_paddle := 0, right_paddle := 0,
        ball := { x := 25, y := 5, moving_right := true, moving_down := true } } true 6) :=
  ⟨(c1_amended_bounds _ (by decide)).1 (by decide),
   (c1_amended_bounds _ (by decide)).2 true 6 (by decide)⟩

/-- C4: with `GAME_WIDTH = 51`, `GAME_HEIGHT = 11`, `PADDLE_HEIGHT = 5`,
one tick step behaves as specified: at `x = 1` a covering left paddle
reverses the horizontal direction with no win message, a missing left
paddle sends `OpponentWon` to the left player and `YouWon` to the right
player; symmetrically at `x = GAME_WIDTH - 2` for the right paddle;
`y = 0` or `y = GAME_HEIGHT - 1` always reverses the vertical direction;
the ball advances one unit in the (post-reversal) current direction; and
`GameStateUpdated` with the new state is the final message broadcast to
both connections. -/
theorem c4_ball_physics :
    (∀ gs : GameState, gs.ball.x = 1 →
      gs.left_paddle ≤ gs.ball.y → gs.ball.y < gs.left_paddle + PADDLE_HEIGHT →
      (tickStep gs).game_state.ball.moving_right = !gs.ball.moving_right ∧
      (tickStep gs).left_msgs = [.GameStateUpdated (tickStep gs).game_state] ∧
      (tickStep gs).right_msgs = [.GameStateUpdated (tickStep gs).game_state]) ∧
    (∀ gs : GameState, gs.ball.x = 1 →
      (gs.left_paddle > gs.ball.y ∨ gs.left_paddle + PADDLE_HEIGHT ≤ gs.ball.y) →
      (tickStep gs).left_msgs =
        [.OpponentWon, .GameStateUpdated (tickStep gs).game_state] ∧
      (tickStep gs).right_msgs =
        [.YouWon, .GameStateUpdated (tickStep gs).game_state]) ∧
    (∀ gs : GameState, gs.ball.x = GAME_WIDTH - 2 →
      gs.right_paddle ≤ gs.ball.y → gs.ball.y < gs.right_paddle + PADDLE_HEIGHT →
      (tickStep gs).game_state.ball.moving_right = !gs.ball.moving_right ∧
      (tickStep gs).left_msgs = [.GameStateUpdated (tickStep gs).game_state] ∧
      (tickStep gs).right_msgs = [.GameStateUpdated (tickStep gs).game_state]) ∧
    (∀ gs : GameState, gs.ball.x = GAME_WIDTH - 2 →
      (gs.right_paddle > gs.ball.y ∨ gs.right_paddle + PADDLE_HEIGHT ≤ gs.ball.y) →
      (tickStep gs).left_msgs =
        [.YouWon, .GameStateUpdated (tickStep gs).game_state] ∧
      (tickStep gs).right_msgs =
        [.OpponentWon, .GameStateUpdated (tickStep gs).game_state]) ∧
    (∀ gs : GameState, gs.ball.y = 0 ∨ gs.ball.y = GAME_HEIGHT - 1 →
      (tickStep gs).game_state.ball.moving_down = !gs.ball.moving_down) ∧
    (∀ gs : GameState, 0 < gs.ball.x → gs.ball.x < 255 → 0 < gs.ball.y → gs.ball.y < 255 →
      (tickStep gs).game_state.ball.x =
        (if (tickStep gs).game_state.ball.moving_right then gs.ball.x + 1
         else gs.ball.x - 1) ∧
      (tickStep gs).game_state.ball.y =
        (if (tickStep gs).game_state.ball.moving_down then gs.ball.y + 1
         else gs.ball.y - 1)) ∧
    (∀ gs : GameState,
      (tickStep gs).left_msgs.getLast? =
        some (.GameStateUpdated (tickStep gs).game_state) ∧
      (tickStep gs).right_msgs.getLast? =
        some (.GameStateUpdated (tickStep gs).game_state)) := by
  refine ⟨?_, ?_, ?_, ?_, ?_, ?_, ?_⟩
  · intro gs hx1 hge hlt
    have hxne49 : gs.ball.x ≠ GAME_WIDTH - 2 := by rw [hx1]; decide
    have hcond : (gs.left_paddle > gs.ball.y ||
        gs.left_paddle + PADDLE_HEIGHT ≤ gs.ball.y) = false := by
      simp only [Bool.or_eq_false_iff, decide_eq_false_iff_not, not_lt, not_le]
      exact ⟨hge, hlt⟩
    refine ⟨?_, ?_, ?_⟩ <;>
      simp [tickStep, leftWallCheck, rightWallCheck, hx1, hcond, hxne49, GAME_WIDTH,
        advanceBall_mr, verticalBounce_mr]
  · intro gs hx1 hmiss
    have hxne49 : gs.ball.x ≠ GAME_WIDTH - 2 := by rw [hx1]; decide
    have hcond : (gs.left_paddle > gs.ball.y ||
        gs.left_paddle + PADDLE_HEIGHT ≤ gs.ball.y) = true := by
      rcases hmiss with h | h <;> simp [h]
    constructor <;>
      simp [tickStep, leftWallCheck, rightWallCheck, hx1, hcond, hxne49, GAME_WIDTH]
  · intro gs hx49 hge hlt
    have hxne1 : gs.ball.x ≠ 1 := by rw [hx49]; decide
    have hcond : (gs.right_paddle > gs.ball.y ||
        gs.right_paddle + PADDLE_HEIGHT ≤ gs.ball.y) = false := by
      simp only [Bool.or_eq_false_iff, decide_eq_false_iff_not, not_lt, not_le]
      exact ⟨hge, hlt⟩
    refine ⟨?_, ?_, ?_⟩ <;>
      simp [tickStep, leftWallCheck, rightWallCheck, hx49, hcond, hxne1, GAME_WIDTH,
        advanceBall_mr, verticalBounce_mr]
  · intro gs hx49 hmiss
    have hxne1 : gs.ball.x ≠ 1 := by rw [hx49]; decide
    have hcond : (gs.right_paddle > gs.ball.y ||
        gs.right_paddle + PADDLE_HEIGHT ≤ gs.ball.y) = true := by
      rcases hmiss with h | h <;> simp [h]
    constructor <;>
      simp [tickStep, leftWallCheck, rightWallCheck, hx49, hcond, hxne1, GAME_WIDTH]
  · intro gs hy
    have hb := (tickStep_state gs).2.2
    rw [hb, advanceBall_md, verticalBounce_md, rightWallCheck_y, rightWallCheck_md,
      leftWallCheck_y, leftWallCheck_md]
    rcases hy with h | h <;> simp [h]
  · intro gs h1 h2 h3 h4
    have hb := (tickStep_state gs).2.2
    constructor
    · rw [hb, advanceBall_x, advanceBall_mr, verticalBounce_x, verticalBounce_mr,
        rightWallCheck_x, leftWallCheck_x]
      cases hm : (rightWallCheck gs.right_paddle
          (leftWallCheck gs.left_paddle gs.ball).1).1.moving_right <;>
        simp [hm] <;> omega
    · rw [hb, advanceBall_y, advanceBall_md, verticalBounce_y, verticalBounce_md,
        rightWallCheck_y, rightWallCheck_md, leftWallCheck_y, leftWallCheck_md]
      cases hm : (if gs.ball.y = 0 || gs.ball.y = GAME_HEIGHT - 1
          then !gs.ball.moving_down else gs.ball.moving_down) <;>
        simp [hm] <;> omega
  · intro gs
    constructor <;> simp [tickStep]

theorem c4_witness :
    ((tickStep ⟨0, 0, ⟨1, 3, false, true⟩⟩).game_state.ball.moving_right = !false ∧
     (tickStep ⟨0, 0, ⟨1, 3, false, true⟩⟩).left_msgs =
       [.GameStateUpdated (tickStep ⟨0, 0, ⟨1, 3, false, true⟩⟩).game_state] ∧
     (tickStep ⟨0, 0, ⟨1, 3, false, true⟩⟩).right_msgs =
       [.GameStateUpdated (tickStep ⟨0, 0, ⟨1, 3, false, true⟩⟩).game_state]) ∧
    ((tickStep ⟨6, 0, ⟨1, 3, false, true⟩⟩).left_msgs =
       [.OpponentWon, .GameStateUpdated (tickStep ⟨6, 0, ⟨1, 3, false, true⟩⟩).game_state] ∧
     (tickStep ⟨6, 0, ⟨1, 3, false, true⟩⟩).right_msgs =
       [.YouWon, .GameStateUpdated (tickStep ⟨6, 0, ⟨1, 3, false, true⟩⟩).game_state]) :=
  ⟨c4_ball_physics.1 ⟨0, 0, ⟨1, 3, false, true⟩⟩ rfl (by decide) (by decide),
   c4_ball_physics.2.1 ⟨6, 0, ⟨1, 3, false, true⟩⟩ rfl (Or.inl (by decide))⟩

/-! ### Lemmas for the lobby start protocol -/

theorem startedBeforeUpdated_true (ws : List (List Nat)) :
    startedBeforeUpdated true ws = true := by
  induction ws with
  | nil => rfl
  | cons w ws ih =>
    unfold startedBeforeUpdated
    split_ifs <;> simp [ih]

theorem lobbyStep_playing_stays (gs : GameState) (e : LobbyEvent) :
    isPlaying (lobbyStep (.Playing gs) e).1 = true := by
  cases e with
  | tick => rfl
  | clientMsg isL msg =>
    cases hd : deserializePlayingClientMessage msg with
    | err e2 => simp [lobbyStep, handlePlaying, hd, isPlaying]
    | ok m =>
      cases m
      simp [lobbyStep, handlePlaying, hd, isPlaying]

theorem awaitingReadies_transition_iff (l r isL : Bool) (msg : List Nat) :
    isPlaying (lobbyStep (.AwaitingReadies l r) (.clientMsg isL msg)).1 = true ↔
      (deserializeAwaitingReadyClientMessage msg = .ok .Ready ∧
        (if isL then r else l) = true) := by
  simp only [lobbyStep]
  cases hd : deserializeAwaitingReadyClientMessage msg with
  | err e2 => simp [handleAwaitingReadies, hd, isPlaying]
  | ok m =>
    cases m <;> cases isL <;> cases l <;> cases r <;>
      simp [handleAwaitingReadies, hd, readyFlagsUpdate, isPlaying]

theorem transitionCount_playing (es : List LobbyEvent) :
    ∀ gs : GameState, transitionCount (.Playing gs) es = 0 := by
  induction es with
  | nil => intro gs; rfl
  | cons e es ih =>
    intro gs
    have h := lobbyStep_playing_stays gs e
    cases hs : (lobbyStep (.Playing gs) e).1 with
    | AwaitingReadies a b =>
      rw [hs] at h
      simp [isPlaying] at h
    | Playing gs2 =>
      simp only [transitionCount, hs]
      simp [isPlaying, ih gs2]

theorem transitionCount_le_one (es : List LobbyEvent) :
    ∀ s : LobbyState, transitionCount s es ≤ 1 := by
  induction es with
  | nil => intro s; simp [transitionCount]
  | cons e es ih =>
    intro s
    cases s with
    | Playing gs =>
      rw [transitionCount_playing (e :: es) gs]
      omega
    | AwaitingReadies l r =>
      simp only [transitionCount]
      cases hs : (lobbyStep (.AwaitingReadies l r) e).1 with
      | AwaitingReadies a b =>
        have := ih (.AwaitingReadies a b)
        simp [isPlaying]
        omega
      | Playing gs2 =>
        simp [isPlaying, transitionCount_playing es gs2]

/-- Along any run that starts in `AwaitingReadies`, every
`GameStateUpdated` frame written to either connection is preceded by a
`GameStarted` frame on that same connection. -/
theorem lobbyRun_started_before_updated (es : List LobbyEvent) :
    ∀ l r : Bool,
      startedBeforeUpdated false (lobbyRun (.AwaitingReadies l r) es).2.1 = true ∧
      startedBeforeUpdated false (lobbyRun (.AwaitingReadies l r) es).2.2 = true := by
  induction es with
  | nil => intro l r; exact ⟨rfl, rfl⟩
  | cons e es ih =>
    intro l r
    cases e with
    | tick => simpa [lobbyRun, lobbyStep] using ih l r
    | clientMsg isL msg =>
      simp only [lobbyRun, lobbyStep]
      cases hd : deserializeAwaitingReadyClientMessage msg with
      | err e2 => simpa [handleAwaitingReadies, hd] using ih l r
      | ok m =>
        cases m <;> cases isL <;> cases l <;> cases r <;>
          simp [handleAwaitingReadies, hd, readyFlagsUpdate, startedBeforeUpdated,
            isGameStateUpdatedFrame, isGameStartedFrame, frameAwaitingReady, framePlaying,
            frame, serializeAwaitingReadyServerMessage, serializePlayingServerMessage,
            tagByte, initialGameState, SERVER_MESSAGE_DELIMITER, GAME_WIDTH, GAME_HEIGHT,
            startedBeforeUpdated_true, ih true false, ih false true, ih true true,
            ih false false]

/-- C5: on a `Joined` lobby, the `AwaitingReadies → Playing` transition
is monotone (a `Playing` lobby never leaves `Playing`), happens at most
once along any serialized run of client messages and ticks, happens on a
client message exactly when that message decodes to `Ready` and the other
player's flag is already set (that is, on the `Ready` that makes both
flags true) and never on a tick, and along any run from the initial
`AwaitingReadies {false, false}` state every `GameStateUpdated` frame
written to either player connection is preceded on that connection by a
`GameStarted` frame. -/
theorem c5_game_started_before_updates :
    (∀ (gs : GameState) (e : LobbyEvent),
      isPlaying (lobbyStep (.Playing gs) e).1 = true) ∧
    (∀ (l r isL : Bool) (msg : List Nat),
      isPlaying (lobbyStep (.AwaitingReadies l r) (.clientMsg isL msg)).1 = true ↔
        (deserializeAwaitingReadyClientMessage msg = .ok .Ready ∧
          (if isL then r else l) = true)) ∧
    (∀ l r : Bool, isPlaying (lobbyStep (.AwaitingReadies l r) .tick).1 = false) ∧
    (∀ (es : List LobbyEvent) (s : LobbyState), transitionCount s es ≤ 1) ∧
    (∀ es : List LobbyEvent,
      startedBeforeUpdated false (lobbyRun (.AwaitingReadies false false) es).2.1 = true ∧
      startedBeforeUpdated false (lobbyRun (.AwaitingReadies false false) es).2.2 = true) :=
  ⟨lobbyStep_playing_stays, awaitingReadies_transition_iff, fun _ _ => rfl,
   transitionCount_le_one, fun es => lobbyRun_started_before_updated es false false⟩

end Pong
